import Mathlib

/-!
Verification development for the Napta remote-timesheet automation client
(`timesheetbot_agent/napta.py` and its command-shell caller
`timesheetbot_agent/cli.py`).

The browser page is modelled as an abstract snapshot (`Page`) recording which
UI affordances the Playwright locators of the source would resolve, the status
chip candidates, the header title and weekday header labels, and the scraped
grid rows.  Pure helpers of the source (`_sanitize_values`,
`_labels_from_title`, `_pretty_labels`, the view formatter, the cache logic)
are translated directly.  Stateful operations are modelled as functions from a
`World` (page snapshot plus filesystem / clock state) to a result together
with an explicit event log of the side effects the source performs
(storage-state reads/writes, cache reads/writes, screenshots, button clicks).
Exceptions are modelled with `Except`: Python `KeyboardInterrupt` (a
`BaseException` that `except Exception` clauses do not catch) is the
`.interrupt` constructor; Playwright timeouts are `.timeout`.
-/

namespace Napta

/-- Exceptions that the Python code can raise across our model's call
boundaries.  `interrupt` models `KeyboardInterrupt` (not an `Exception`
subclass, hence not caught by `_safe_run`), `eof` models `EOFError`,
`timeout` models `playwright TimeoutError`, `other` any other `Exception`. -/
inductive Exc where
  | interrupt
  | eof
  | timeout
  | other (s : String)
deriving DecidableEq, Repr

/-- Buttons the client clicks, for the event log. -/
inductive Btn where
  | create
  | save
  | submit
  | modalConfirm
  | navRight
  | nextRole
deriving DecidableEq, Repr

/-- Observable side effects of one client operation:
reads/writes of the persisted storage-state file (`STATE_PATH`),
reads/writes/unlinks of the view cache file (`view_cache.json`),
screenshots, button clicks, and the ArrowRight keypress used as the
last navigation fallback. -/
inductive Ev where
  | launch
  | readState
  | writeState
  | readCache
  | writeCache (which text : String)
  | unlinkCache
  | shot (name : String)
  | click (b : Btn)
  | keypress
deriving DecidableEq, Repr

/-- Result of `_wait_for_save_submit_chip`: which actionable affordance was
found first («create», «save» or «submit»). -/
inductive Chip where
  | create
  | save
  | submit
deriving DecidableEq, Repr

/-- Abstract snapshot of the rendered timesheet page.  Boolean fields record
whether the corresponding Playwright locator of the source resolves on this
page; string/list fields record the text those locators would read. -/
structure Page where
  /-- `_open_timesheet` outcome: `none` means the page loaded. -/
  loadExc : Option Exc := none
  /-- `_on_login_page()` -/
  onLogin : Bool := false
  /-- role button "Create timesheet" -/
  createBtn : Bool := false
  /-- role button matching `^Save$` -/
  saveBtn : Bool := false
  /-- role button "Submit for approval" -/
  submitBtn : Bool := false
  /-- the XPath fallbacks of `_click_create` resolve -/
  createXpath : Bool := false
  /-- the XPath fallback of `_click_save` resolves -/
  saveXpath : Bool := false
  /-- the XPath fallback probed by `_has_submit_button` resolves -/
  submitXpath : Bool := false
  /-- confirmation-modal button (`_confirm_submit_modal`) -/
  modalConfirmBtn : Bool := false
  /-- `[data-cy*="navRight"]` control of the period navigation -/
  navRightBtn : Bool := false
  /-- generic role button "Next" -/
  nextRoleBtn : Bool := false
  /-- per-container first matches of the status regex, in container order
  (`_get_status_chip_text` containers) -/
  chipCands : List String := []
  /-- `_get_week_title` result -/
  title : String := ""
  /-- a timesheet table/grid container is found (`_find_timesheet_table`) -/
  tableFound : Bool := false
  /-- `(col index, label)` weekday headers found in the DOM
  (`_get_weekday_headers` strategies 1–3; strategy 4 synthesizes) -/
  dayCols : List (Nat × String) := []
  /-- scraped grid rows `(project, day values, total)` as produced by
  `_verbatim_grid`'s native-table branch -/
  scrapedRows : List (String × List String × String) := []
deriving Repr

/-- A `view_cache.json` entry: epoch seconds at write, requested period key,
cached text. -/
structure CacheEntry where
  ts : Int
  which : String
  text : String
deriving DecidableEq, Repr

/-- The state one client operation runs against: the page snapshot, the page
snapshots observed after a Create click / after a Submit click / after a week
navigation, filesystem state, clock, and the marker values the navigation
poll observes. -/
structure World where
  page : Page
  pageAfterCreate : Page := {}
  pageAfterSubmit : Page := {}
  pageAfterNav : Page := {}
  /-- `STATE_PATH.exists()` -/
  stateFileExists : Bool := false
  /-- a live session (`self._p`, `self._browser`, `self._ctx`, `self._page`)
  is already open, making `_ensure_session` a no-op -/
  sessionOpen : Bool := false
  /-- parsed content of `view_cache.json` (`none`: missing or unreadable) -/
  cache : Option CacheEntry := none
  /-- `ts()` timestamp string used in screenshot names -/
  nowStr : String := "T"
  /-- `time.time()` in whole seconds, for the view-cache TTL -/
  nowT : Int := 0
  /-- week marker (`title or fingerprint`) observed at the k-th verification
  poll of `_go_to_next_week` -/
  navObs : Nat → String := fun _ => ""
  /-- login: an affordance or a non-empty chip appeared within 180 s, so the
  storage state was captured -/
  ssoCaptured : Bool := false

instance {ε α : Type} [DecidableEq ε] [DecidableEq α] :
    DecidableEq (Except ε α) := fun x y =>
  match x, y with
  | .ok a, .ok b => decidable_of_iff (a = b) (by simp)
  | .error a, .error b => decidable_of_iff (a = b) (by simp)
  | .ok _, .error _ => isFalse (fun h => Except.noConfusion h)
  | .error _, .ok _ => isFalse (fun h => Except.noConfusion h)

/-- Result of one operation: its `(ok, message)` pair (or an escaped
exception) together with the ordered effect log. -/
structure OpOut where
  res : Except Exc (Bool × String)
  log : List Ev
deriving DecidableEq, Repr

/-! ### String helpers mirroring the Python primitives (implemented over
the character list so that concrete instances evaluate in the kernel) -/

/-- Python `s.lower()`. -/
def strLower (s : String) : String := ⟨s.data.map Char.toLower⟩

/-- Python `s.strip()`. -/
def strStrip (s : String) : String :=
  ⟨((s.data.dropWhile Char.isWhitespace).reverse.dropWhile
      Char.isWhitespace).reverse⟩

/-- Python `s.startswith(pre)`. -/
def strStarts (s pre : String) : Bool := pre.data.isPrefixOf s.data

/-- Python `s[:n]` (by characters). -/
def strTake (s : String) (n : Nat) : String := ⟨s.data.take n⟩

/-- Python `s[n:]` (by characters). -/
def strDrop (s : String) (n : Nat) : String := ⟨s.data.drop n⟩

/-- Split a character list at every character satisfying `p`, keeping empty
segments (`acc` is the current segment, reversed). -/
def splitPAux (p : Char → Bool) (acc : List Char) : List Char →
    List (List Char)
  | [] => [acc.reverse]
  | x :: xs =>
    if p x then acc.reverse :: splitPAux p [] xs
    else splitPAux p (x :: acc) xs

/-- Python `s.split()`: whitespace-separated tokens, empties dropped. -/
def splitWs (s : String) : List String :=
  ((splitPAux Char.isWhitespace [] s.data).filter (fun l => l ≠ [])).map
    (fun l => ⟨l⟩)

/-- Python `s.split("-")` (empties kept). -/
def splitDash (s : String) : List String :=
  (splitPAux (fun c => c = '-') [] s.data).map (fun l => ⟨l⟩)

/-- Numeric value of a digit string. -/
def digitsToNat (l : List Char) : Nat :=
  l.foldl (fun a c => a * 10 + (c.toNat - ('0').toNat)) 0

/-- Python `" ".join(s.split())`: collapse all whitespace runs. -/
def normWs (s : String) : String :=
  String.intercalate " " (splitWs s)

/-- Python `s.ljust(w)`. -/
def ljust (s : String) (w : Nat) : String :=
  s ++ String.mk (List.replicate (w - s.length) ' ')

/-! ### `_get_status_chip_text` -/

/-- The literal statuses of the regex
`^(Not created|Draft|Open|Validated|Approval pending|Submitted)$` in
`_get_status_chip_text`. -/
def statusLits : List String :=
  ["Not created", "Draft", "Open", "Validated", "Approval pending", "Submitted"]

/-- Case-insensitive full match against the status literals (the `text=/…/i`
locator filter in `_get_status_chip_text`). -/
def matchesStatusRegex (s : String) : Bool :=
  statusLits.any (fun l => decide (strLower l = strLower s))

/-- Scan of the container candidates in `_get_status_chip_text`: the first
regex-matching text whose stripped form is non-empty and at most 30
characters. -/
def chipScan : List String → String
  | [] => ""
  | t :: rest =>
    if matchesStatusRegex t ∧ strStrip t ≠ "" ∧ (strStrip t).length ≤ 30 then
      strStrip t
    else chipScan rest

/-- `_get_status_chip_text`: scan the per-container first matches in
container order; empty string when nothing qualifies. -/
def getStatusChipText (p : Page) : String :=
  chipScan p.chipCands

/-- The chip text, lowered and stripped, starts with "approval pending" or
"submitted" — the terminal-state test used by `_wait_for_save_submit_chip`
and `_wait_until_submitted`. -/
def chipTerminal (p : Page) : Bool :=
  let c := strStrip (strLower (getStatusChipText p))
  strStarts c "approval pending" || strStarts c "submitted"

/-! ### `_wait_for_save_submit_chip` -/

/-- One polling loop of `_wait_for_save_submit_chip` over the page as
observed at successive iterations (`pages t` is the snapshot at the t-th
iteration; `fuel` is the number of iterations the timeout allows, one per
≈150 ms of `timeout_ms`).  Within each iteration the source checks, in this
order: the "Create timesheet" role button, the `^Save$` role button, the
"Submit for approval" role button; then it returns `none` early if the chip
is terminal, else sleeps 150 ms and repeats; on timeout it returns `none`. -/
def waitChipAux (pages : Nat → Page) (t : Nat) : Nat → Option Chip
  | 0 => none
  | fuel + 1 =>
    let p := pages t
    if p.createBtn then some .create
    else if p.saveBtn then some .save
    else if p.submitBtn then some .submit
    else if chipTerminal p then none
    else waitChipAux pages (t + 1) fuel

/-- Iterations allowed by `SHORT_TIMEOUT_MS = 4000` at one per 150 ms. -/
def shortFuel : Nat := 4000 / 150

/-- Iterations allowed by `DEFAULT_TIMEOUT_MS = 30000` at one per 150 ms. -/
def defaultFuel : Nat := 30000 / 150

/-- `_wait_for_save_submit_chip` against a page that does not change while
the loop runs. -/
def waitChipS (p : Page) (fuel : Nat) : Option Chip :=
  waitChipAux (fun _ => p) 0 fuel

/-- On a static page the poll loop collapses to a single priority check:
create, then save, then submit, else `none`. -/
theorem waitChipAux_static (p : Page) (t fuel : Nat) :
    waitChipAux (fun _ => p) t (fuel + 1) =
      (if p.createBtn then some .create
       else if p.saveBtn then some .save
       else if p.submitBtn then some .submit
       else none) := by
  induction fuel generalizing t with
  | zero => simp [waitChipAux]
  | succ n ih =>
    rw [waitChipAux]
    by_cases hc : p.createBtn <;> by_cases hs : p.saveBtn <;>
      by_cases hb : p.submitBtn <;> by_cases ht : chipTerminal p <;>
      simp [hc, hs, hb, ht, ih]

/-! ### `_sanitize_values` (closure inside `_verbatim_grid`) -/

/-- The leading `while` loop of `_sanitize_values`: repeatedly drop the first
value while it is non-empty and, once stripped, equals the project text or
its lowercase form starts with the first 16 characters of the lowercased
project text. -/
def dropDupLabel (proj : String) : List String → List String
  | [] => []
  | v :: rest =>
    if v = "" then v :: rest
    else
      let s := strStrip v
      if s = "" then v :: rest
      else if s = proj ∨ strStarts (strLower s) (strTake (strLower proj) 16) then
        dropDupLabel proj rest
      else v :: rest

/-- `_sanitize_values(values, proj)` with the enclosing `day_count`:
drop leading duplicated project labels, drop a lone trailing weekly-total
cell, then clip or pad to exactly `day_count` values. -/
def sanitizeValues (day_count : Nat) (proj : String) (values : List String) :
    List String :=
  let v1 := dropDupLabel proj values
  let v2 := if v1.length = day_count + 1 then v1.take day_count else v1
  if v2.length > day_count then v2.take day_count
  else v2 ++ List.replicate (day_count - v2.length) ""

theorem sanitizeValues_length (day_count : Nat) (proj : String)
    (values : List String) :
    (sanitizeValues day_count proj values).length = day_count := by
  unfold sanitizeValues
  set v1 := dropDupLabel proj values
  by_cases h1 : v1.length = day_count + 1
  · simp [h1]
  · simp only [h1, if_false]
    by_cases h2 : v1.length > day_count
    · simp [h2, Nat.min_eq_left (Nat.le_of_lt h2)]
    · simp only [h2, if_false]
      simp [Nat.add_sub_cancel' (Nat.le_of_not_lt h2)]

/-! ### Dates (`datetime.strptime` / `timedelta` as used by
`_labels_from_title`) -/

/-- A calendar date, `strptime`-style. -/
structure Date where
  day : Nat
  month : Nat
  year : Nat
deriving DecidableEq, Repr

def isLeap (y : Nat) : Bool :=
  (y % 4 = 0 && y % 100 ≠ 0) || y % 400 = 0

def daysInMonth (m y : Nat) : Nat :=
  if m = 2 then (if isLeap y then 29 else 28)
  else if m = 4 ∨ m = 6 ∨ m = 9 ∨ m = 11 then 30
  else 31

/-- `strptime` range validation: month 1–12, day 1–days-in-month. -/
def validDate (d : Date) : Bool :=
  1 ≤ d.month && d.month ≤ 12 && 1 ≤ d.day && d.day ≤ daysInMonth d.month d.year

/-- Days since 1970-01-01 (proleptic Gregorian, the arithmetic behind
`datetime` subtraction). -/
def rataDie (d : Date) : Int :=
  let y : Int := if d.month ≤ 2 then (d.year : Int) - 1 else d.year
  let m : Int := d.month
  let era : Int := y / 400
  let yoe : Int := y - era * 400
  let doy : Int := (153 * (m + (if m > 2 then -3 else 9)) + 2) / 5 + (d.day : Int) - 1
  let doe : Int := yoe * 365 + yoe / 4 - yoe / 100 + doy
  era * 146097 + doe - 719468

/-- `strftime('%A')`: full weekday name (1970-01-01 was a Thursday). -/
def weekdayName (d : Date) : String :=
  let i := ((rataDie d + 4) % 7).toNat
  (["Sunday", "Monday", "Tuesday", "Wednesday", "Thursday", "Friday",
    "Saturday"].getD i "")

def nextDate (d : Date) : Date :=
  if d.day < daysInMonth d.month d.year then { d with day := d.day + 1 }
  else if d.month < 12 then { day := 1, month := d.month + 1, year := d.year }
  else { day := 1, month := 1, year := d.year + 1 }

/-- `date + timedelta(days := n)`. -/
def addDays (d : Date) : Nat → Date
  | 0 => d
  | n + 1 => addDays (nextDate d) n

def pad2 (n : Nat) : String :=
  if n < 10 then "0" ++ toString n else toString n

/-- `strftime('%d-%m-%Y')`. -/
def fmtDate (d : Date) : String :=
  pad2 d.day ++ "-" ++ pad2 d.month ++ "-" ++ toString d.year

/-! ### `_labels_from_title` -/

def allDigits (s : String) : Bool :=
  s ≠ "" && s.data.all Char.isDigit

/-- Parse a `DD-MM-YYYY` token (the `\d{2}-\d{2}-\d{4}` groups of
`_labels_from_title`), validating ranges as `strptime('%d-%m-%Y')` does. -/
def parseDMY (s : String) : Option Date :=
  match splitDash s with
  | [d, m, y] =>
    if d.length = 2 ∧ m.length = 2 ∧ y.length = 4 ∧
        allDigits d ∧ allDigits m ∧ allDigits y then
      let dt : Date := { day := digitsToNat d.data, month := digitsToNat m.data,
                         year := digitsToNat y.data }
      if validDate dt then some dt else none
    else none
  | _ => none

/-- First whitespace-token match of
`\bfrom\s+(\d{2}-\d{2}-\d{4})\s+to\s+(\d{2}-\d{2}-\d{4})\b` (case-insensitive)
over the title. -/
def findFromTo : List String → Option (Date × Date)
  | f :: d1 :: t :: d2 :: rest =>
    match
      (if strLower f = "from" ∧ strLower t = "to" then
        match parseDMY d1, parseDMY d2 with
        | some a, some b => some (a, b)
        | _, _ => none
      else none : Option (Date × Date))
    with
    | some p => some p
    | none => findFromTo (d1 :: t :: d2 :: rest)
  | _ => none

/-- First whitespace-token match of the generic numeric range
`\b(\d{2}-\d{2}-\d{4})\s*(?:–|-|to)\s*(\d{2}-\d{2}-\d{4})\b` in the
whitespace-separated form `DD-MM-YYYY (–|-|to) DD-MM-YYYY`. -/
def findNumRange : List String → Option (Date × Date)
  | d1 :: sep :: d2 :: rest =>
    match
      (if sep = "–" ∨ sep = "-" ∨ strLower sep = "to" then
        match parseDMY d1, parseDMY d2 with
        | some a, some b => some (a, b)
        | _, _ => none
      else none : Option (Date × Date))
    with
    | some p => some p
    | none => findNumRange (sep :: d2 :: rest)
  | _ => none

def monthAbbrs : List String :=
  ["jan", "feb", "mar", "apr", "may", "jun", "jul", "aug", "sep", "oct",
   "nov", "dec"]

def monthOfAbbr (s : String) : Option Nat :=
  (monthAbbrs.enum.find? (fun q => decide (q.2 = strTake (strLower s) 3))).map
    (fun q => q.1 + 1)

def parseSmallNat (s : String) : Option Nat :=
  if allDigits s ∧ 1 ≤ s.length ∧ s.length ≤ 2 then some (digitsToNat s.data)
  else none

/-- First whitespace-token match of the textual-month range
`\b(\d{1,2})\s*[–-]\s*(\d{1,2})\s*(Jan|…|Dec)[a-z]*\s*(\d{4})\b` in the
token form `D–D Month YYYY`. -/
def findMonRange : List String → Option (Nat × Nat × Nat × Nat)
  | dd :: mon :: yr :: rest =>
    match
      (match (splitPAux (fun c => c = '–') [] dd.data).map (fun l => (⟨l⟩ : String)) with
       | [a, b] =>
         match parseSmallNat a, parseSmallNat b, monthOfAbbr mon with
         | some d1, some d2, some m =>
           if allDigits yr ∧ yr.length = 4 then
             some (d1, d2, m, digitsToNat yr.data)
           else none
         | _, _, _ => none
       | _ => none : Option (Nat × Nat × Nat × Nat))
    with
    | some q => some q
    | none => findMonRange (mon :: yr :: rest)
  | _ => none

/-- `days = max(1, min(days, 7))` over the signed day span, then one
`'%A %d-%m-%Y'` label per day starting at `start`. -/
def labelsForSpan (start : Date) (daysSigned : Int) : List String :=
  let days : Nat := (max 1 (min daysSigned 7)).toNat
  (List.range days).map (fun i =>
    let d := addDays start i
    weekdayName d ++ " " ++ fmtDate d)

/-- `_labels_from_title`: numeric `from … to …` first, then a generic
numeric range, then a textual-month range; `[]` when nothing matches.
Regex searches are modelled over the whitespace-token forms of the title. -/
def labelsFromTitle (title : String) : List String :=
  let toks := splitWs title
  match findFromTo toks with
  | some (s, e) => labelsForSpan s (rataDie e - rataDie s + 1)
  | none =>
    match findNumRange toks with
    | some (s, e) => labelsForSpan s (rataDie e - rataDie s + 1)
    | none =>
      match findMonRange toks with
      | some (d1, d2, m, y) =>
        let start : Date := { day := d1, month := m, year := y }
        if validDate start then
          labelsForSpan start ((d2 : Int) - (d1 : Int) + 1)
        else []
      | none => []

/-! ### Period fingerprint and week navigation -/

/-- `_period_fingerprint`: whitespace-normalized weekday header labels joined
by `" | "`; empty when no table or no headers. -/
def periodFingerprint (p : Page) : String :=
  if p.tableFound ∧ p.dayCols ≠ [] then
    String.intercalate " | " (p.dayCols.map (fun c => normWs c.2))
  else ""

/-- The `before`/`after` marker of `_go_to_next_week`: the stripped parsed
title if non-empty, else the header fingerprint. -/
def navMarker (p : Page) : String :=
  let t := strStrip p.title
  if t ≠ "" then t else periodFingerprint p

/-- One click cycle of `_go_to_next_week`: each selector layer is attempted
under exception suppression — the `data-cy*="navRight"` control, the generic
role button "Next", and then the ArrowRight keypress (always pressed). -/
def attemptClicks (p : Page) : List Ev :=
  (if p.navRightBtn then [.click .navRight] else []) ++
  (if p.nextRoleBtn then [.click .nextRole] else []) ++ [.keypress]

/-- The inner verification poll: up to `n` checks 300 ms apart (the source
uses `range(30)`, ≈9 s); succeeds when the observed marker is non-empty and
differs from the captured `before` marker. -/
def pollChange (before : String) (obs : Nat → String) : Nat → Nat → Bool
  | _, 0 => false
  | base, n + 1 =>
    let a := obs base
    if a ≠ "" ∧ a ≠ before then true else pollChange before obs (base + 1) n

/-- The retry loop of `_go_to_next_week`: up to 3 click-and-poll cycles, each
polling 30 times; returns whether a marker change was observed, plus the
click events performed. -/
def goAttempts (before : String) (p : Page) (obs : Nat → String) :
    Nat → Nat → Bool × List Ev
  | _, 0 => (false, [])
  | base, n + 1 =>
    let l := attemptClicks p
    if pollChange before obs base 30 then (true, l)
    else
      let r := goAttempts before p obs (base + 30) n
      (r.1, l ++ r.2)

/-- `_go_to_next_week()`. -/
def goToNextWeek (w : World) : Bool × List Ev :=
  goAttempts (navMarker w.page) w.page w.navObs 0 3

/-! ### `_pretty_labels` and the view formatter -/

def weekdayAbbrPairs : List (String × String) :=
  [("monday", "Mon"), ("tuesday", "Tue"), ("wednesday", "Wed"),
   ("thursday", "Thu"), ("friday", "Fri"), ("saturday", "Sat"),
   ("sunday", "Sun")]

/-- Match the anchored day-label pattern of `_pretty_labels` — a full
weekday name, optional spaces, then `d{1,2}`, a dash or slash, `d{1,2}`, a
dash or slash, `d{2,4}`, end — case-insensitively against a
whitespace-normalized label, returning the 3-letter weekday abbreviation
and the two leading numbers. -/
def parseWdDate (s : String) : Option (String × Nat × Nat) :=
  match weekdayAbbrPairs.find? (fun q => strStarts (strLower s) q.1) with
  | none => none
  | some (full, ab) =>
    let cs := (strDrop s full.length).data.dropWhile (· = ' ')
    let d1 := cs.takeWhile Char.isDigit
    let r1 := cs.dropWhile Char.isDigit
    if 1 ≤ d1.length ∧ d1.length ≤ 2 then
      match r1 with
      | c :: r2 =>
        if c = '-' ∨ c = '/' then
          let d2 := r2.takeWhile Char.isDigit
          let r3 := r2.dropWhile Char.isDigit
          if 1 ≤ d2.length ∧ d2.length ≤ 2 then
            match r3 with
            | c2 :: r4 =>
              if c2 = '-' ∨ c2 = '/' then
                let d3 := r4.takeWhile Char.isDigit
                let r5 := r4.dropWhile Char.isDigit
                if 2 ≤ d3.length ∧ d3.length ≤ 4 ∧ r5 = [] then
                  some (ab, digitsToNat d1, digitsToNat d2)
                else none
              else none
            | [] => none
          else none
        else none
      | [] => none
    else none

/-- One label of `_pretty_labels`: `'Mon 10-11'` when the label carries a
date, else the label with a leading weekday name abbreviated. -/
def prettyOne (lbl : String) : String :=
  let s := normWs (strStrip lbl)
  match parseWdDate s with
  | some (ab, dd, mm) => ab ++ " " ++ pad2 dd ++ "-" ++ pad2 mm
  | none =>
    let parts := splitWs s
    match parts with
    | [] => s
    | h :: t =>
      let h2 := match weekdayAbbrPairs.find? (fun q => decide (q.1 = strLower h)) with
        | some q => q.2
        | none => h
      String.intercalate " " (h2 :: t)

def prettyLabels (dayCols : List (Nat × String)) : List String :=
  dayCols.map (fun c => prettyOne c.2)

/-- The fixed-width project column of the view: the exact length of the
string `"PALO IT Singapore — SG - Training 2025"`. -/
def projWidth : Nat := ("PALO IT Singapore — SG - Training 2025" : String).length

def fitProject (name : String) : String :=
  if name.length ≤ projWidth then ljust name projWidth
  else strTake name (projWidth - 3) ++ " .."

/-- The formatted multi-line view text built at the end of
`_view_week_fast`: title line, optional chip line, blank line, header,
dashes, then one line per grid row (or `(No rows)`). -/
def renderView (title chip : String) (dayCols : List (Nat × String))
    (rows : List (String × List String × String)) : String :=
  let dayHeaders := prettyLabels dayCols
  let dayWidth := max 6 (dayHeaders.foldr (fun h m => max h.length m) 0)
  let totalWidth := max 6 ("Total" : String).length
  let fmtRow := fun (proj : String) (cells : List String) (total : String) =>
    let wc := dayHeaders.length
    let cells2 := (cells ++ List.replicate (wc - cells.length) "").take wc
    fitProject proj ++ " | " ++
      String.intercalate " | " (cells2.map (fun c => ljust c dayWidth)) ++
      " |" ++ "   " ++ ljust total totalWidth
  let hdr := String.intercalate " | "
    ([fitProject "Project"] ++ dayHeaders.map (fun h => ljust h dayWidth) ++
     [ljust "Total" totalWidth])
  let lines :=
    ["🗓 " ++ title] ++
    (if chip ≠ "" ∧ strLower chip ≠ "unknown" then [chip] else []) ++
    [""] ++ [hdr] ++ [String.mk (List.replicate (max 40 hdr.length) '-')] ++
    (if rows.isEmpty then ["(No rows)"]
     else rows.map (fun r => fmtRow r.1 r.2.1 r.2.2))
  String.intercalate "\n" lines

/-! ### The view cache (`_view_cache_get` / `_view_cache_put`) -/

/-- `_view_cache_get`: the cached text when the entry exists, is less than
10 seconds old, and was stored under the same period key. -/
def viewCacheGet (w : World) (which : String) : Option String :=
  match w.cache with
  | some e => if w.nowT - e.ts < 10 ∧ e.which = which then some e.text else none
  | none => none

/-! ### Operation preludes shared by the fast operations -/

/-- Effects of `_ensure_session`: a no-op when a session is already open,
else a browser/context launch during which the storage state is loaded into
the new context exactly when the file exists. -/
def ensureLog (w : World) : List Ev :=
  if w.sessionOpen then []
  else .launch :: (if w.stateFileExists then [.readState] else [])

def excStr : Exc → String
  | .interrupt => "KeyboardInterrupt"
  | .eof => "EOFError"
  | .timeout => "Timeout"
  | .other s => s

def loginRequiredMsg (n : String) : String :=
  "⛔ Napta login required. Please open https://app.napta.io once in Chrome. Screenshot -> " ++ n

/-- The prelude every fast operation repeats: `_ensure_session`, then
`_safe_run(_open_timesheet, "page load")` — a Playwright timeout or other
`Exception` is converted to a `(False, message)` return, while a
`KeyboardInterrupt` escapes `_safe_run` — then the `_on_login_page` check
with its screenshot.  `l0` is the event prefix already accumulated, `k` the
operation body. -/
def loadGate (w : World) (l0 : List Ev) (k : List Ev → OpOut) : OpOut :=
  let pre := l0 ++ ensureLog w
  match w.page.loadExc with
  | some .interrupt => ⟨.error .interrupt, pre⟩
  | some .timeout =>
    ⟨.ok (false, "⏰ The page load took too long (timed out). Please retry in a few seconds."), pre⟩
  | some e =>
    ⟨.ok (false, "⚠️ Unexpected error during page load: " ++ excStr e), pre⟩
  | none =>
    if w.page.onLogin then
      let n := "napta_login_required_" ++ w.nowStr ++ ".png"
      ⟨.ok (false, loginRequiredMsg n), pre ++ [.shot n]⟩
    else k pre

/-- `_click_create`: the two XPath fallbacks. -/
def clickCreateOk (p : Page) : Bool := p.createXpath

/-- `_click_save`: role button, then XPath fallback. -/
def clickSaveOk (p : Page) : Bool := p.saveBtn || p.saveXpath

/-- `_click_submit`: the "Submit for approval" role button. -/
def clickSubmitOk (p : Page) : Bool := p.submitBtn

/-- `_has_submit_button`. -/
def hasSubmitButton (p : Page) : Bool := p.submitBtn || p.submitXpath

/-- `_wait_until_submitted` collapsed on a static page: the submit button
disappeared, or the chip became terminal. -/
def waitUntilSubmitted (p : Page) : Bool := !p.submitBtn || chipTerminal p

/-! ### Save operations -/

/-- Final part of the save flows: `_click_save` (screenshot on failure),
`_saw_saved_toast`, view-cache unlink, success message. -/
def saveClickTail (p : Page) (nowStr : String) (l : List Ev) (okMsg : String) :
    OpOut :=
  if clickSaveOk p then
    ⟨.ok (true, okMsg), l ++ [.click .save, .unlinkCache]⟩
  else
    let n := "napta_save_failure_" ++ nowStr ++ ".png"
    ⟨.ok (false, "❌ Could not click 'Save'. Screenshot -> " ++ n), l ++ [.shot n]⟩

def createFailOut (nowStr : String) (l : List Ev) : OpOut :=
  let n := "napta_create_failure_" ++ nowStr ++ ".png"
  ⟨.ok (false, "❌ Could not click 'Create timesheet'. Screenshot -> " ++ n), l ++ [.shot n]⟩

/-- `_save_current_week_fast`. -/
def saveCurrentWeek (w : World) : OpOut :=
  loadGate w [] (fun pre =>
    match waitChipS w.page shortFuel with
    | none => ⟨.ok (true, "ℹ️ Timesheet already submitted for this week."), pre⟩
    | some .create =>
      if clickCreateOk w.page then
        let l := pre ++ [.click .create]
        match waitChipS w.pageAfterCreate shortFuel with
        | none => ⟨.ok (false, "❌ After 'Create', no Save/Submit visible."), l⟩
        | some .submit =>
          ⟨.ok (true, "✅ Timesheet already saved. 'Submit for approval' is visible."), l⟩
        | some _ => saveClickTail w.pageAfterCreate w.nowStr l "✅ Saved (draft)."
      else createFailOut w.nowStr pre
    | some .submit =>
      ⟨.ok (true, "✅ Timesheet already saved. 'Submit for approval' is visible."), pre⟩
    | some .save => saveClickTail w.page w.nowStr pre "✅ Saved (draft).")

/-- `_save_next_week_fast`. -/
def saveNextWeek (w : World) : OpOut :=
  loadGate w [] (fun pre =>
    let nav := goToNextWeek w
    if !nav.1 then
      let n := "napta_error_" ++ w.nowStr ++ ".png"
      ⟨.ok (false, "❌ Could not navigate to next week. Screenshot -> " ++ n),
        pre ++ nav.2 ++ [.shot n]⟩
    else
      let p := w.pageAfterNav
      let l := pre ++ nav.2
      match waitChipS p shortFuel with
      | none =>
        if hasSubmitButton p then
          ⟨.ok (true, "✅ Next week saved. Do you want to 'Submit for approval'? Type sbnw"), l⟩
        else if chipTerminal p then
          ⟨.ok (true, "ℹ️ Next week already submitted."), l⟩
        else
          ⟨.ok (true, "✅ Next week already saved. 'Submit for approval' may be visible."), l⟩
      | some .create =>
        if clickCreateOk p then
          let l := l ++ [.click .create]
          match waitChipS w.pageAfterCreate shortFuel with
          | none => ⟨.ok (false, "❌ After 'Create', no Save/Submit visible."), l⟩
          | some .submit =>
            ⟨.ok (true, "✅ Next week already saved. 'Submit for approval' is visible."), l⟩
          | some _ =>
            saveClickTail w.pageAfterCreate w.nowStr l "✅ Next week saved (draft)."
        else createFailOut w.nowStr l
      | some .submit =>
        ⟨.ok (true, "✅ Next week already saved. 'Submit for approval' is visible."), l⟩
      | some .save => saveClickTail p w.nowStr l "✅ Next week saved (draft).")

/-! ### Submit operations -/

/-- `_click_submit` + `_confirm_submit_modal`, then — when `doVerify` —
`_wait_until_submitted` with screenshot on failure, then cache unlink and
the success message.  (`_submit_next_week_fast`'s create branch clicks
submit without verifying.) -/
def submitClick (w : World) (p : Page) (l : List Ev) (okMsg : String)
    (doVerify : Bool) : OpOut :=
  if clickSubmitOk p then
    let l := l ++ [.click .submit] ++
      (if p.modalConfirmBtn then [.click .modalConfirm] else [])
    if doVerify then
      if waitUntilSubmitted w.pageAfterSubmit then
        ⟨.ok (true, okMsg), l ++ [.unlinkCache]⟩
      else
        let n := "napta_submit_verify_" ++ w.nowStr ++ ".png"
        ⟨.ok (false, "❌ Submit click didn't finalize. Screenshot -> " ++ n),
          l ++ [.shot n]⟩
    else ⟨.ok (true, okMsg), l ++ [.unlinkCache]⟩
  else ⟨.ok (false, "❌ Could not click 'Submit for approval'."), l⟩

/-- `_submit_current_week_fast`. -/
def submitCurrentWeek (w : World) : OpOut :=
  loadGate w [] (fun pre =>
    match waitChipS w.page shortFuel with
    | none => ⟨.ok (true, "ℹ️ Timesheet already submitted."), pre⟩
    | some .create =>
      if clickCreateOk w.page then
        let l := pre ++ [.click .create]
        let p := w.pageAfterCreate
        match waitChipS p shortFuel with
        | some .save =>
          if clickSaveOk p then
            submitClick w p (l ++ [.click .save]) "✅ Submitted for approval." true
          else ⟨.ok (false, "❌ Could not click 'Save' before submit."), l⟩
        | some .submit => submitClick w p l "✅ Submitted for approval." true
        | _ => ⟨.ok (false, "❌ Unknown state while submitting."), l⟩
      else createFailOut w.nowStr pre
    | some .save =>
      if clickSaveOk w.page then
        submitClick w w.page (pre ++ [.click .save]) "✅ Submitted for approval." true
      else ⟨.ok (false, "❌ Could not click 'Save' before submit."), pre⟩
    | some .submit => submitClick w w.page pre "✅ Submitted for approval." true)

/-- `_submit_next_week_fast`. -/
def submitNextWeek (w : World) : OpOut :=
  loadGate w [] (fun pre =>
    let nav := goToNextWeek w
    if !nav.1 then
      let n := "napta_error_" ++ w.nowStr ++ ".png"
      ⟨.ok (false, "❌ Could not navigate to next week. Screenshot -> " ++ n),
        pre ++ nav.2 ++ [.shot n]⟩
    else
      let p := w.pageAfterNav
      let l := pre ++ nav.2
      match waitChipS p shortFuel with
      | none => ⟨.ok (true, "ℹ️ Next week already submitted."), l⟩
      | some .save =>
        if clickSaveOk p then
          submitClick w p (l ++ [.click .save]) "✅ Next week submitted for approval." true
        else ⟨.ok (false, "❌ Could not click 'Save' before submit."), l⟩
      | some .submit =>
        submitClick w p l "✅ Next week submitted for approval." true
      | some .create =>
        if clickCreateOk p then
          let l := l ++ [.click .create]
          let p2 := w.pageAfterCreate
          match waitChipS p2 shortFuel with
          | some .save =>
            if clickSaveOk p2 then
              submitClick w p2 (l ++ [.click .save]) "✅ Next week submitted for approval." false
            else ⟨.ok (false, "❌ Could not click 'Save' after creating."), l⟩
          | some .submit =>
            submitClick w p2 l "✅ Next week submitted for approval." false
          | _ => ⟨.ok (false, "❌ Unknown state while submitting."), l⟩
        else createFailOut w.nowStr l)

/-! ### View operation -/

/-- The text built by the scrape-and-render part of `_view_week_fast` for
page `p`: the no-table message, the no-headers message, or the rendered
grid (headers falling back to labels synthesized from the title). -/
def viewScrapeMsg (p : Page) : String :=
  let chipRaw := getStatusChipText p
  let chip := if chipRaw = "" then "unknown" else chipRaw
  let title := if p.title = "" then "Week" else p.title
  if !p.tableFound then
    "🗓 " ++ title ++ "\nStatus: " ++ chip ++
      "\nℹ️ Could not locate the timesheet table."
  else
    let dayCols :=
      if p.dayCols ≠ [] then p.dayCols
      else (labelsFromTitle p.title).enum.map (fun q => (q.1 + 1, q.2))
    if dayCols = [] then
      "🗓 " ++ title ++ "\nStatus: " ++ chip ++ "\n(Headers not found)"
    else renderView title chip dayCols p.scrapedRows

/-- The scrape-and-render part of `_view_week_fast`, against page `p` (the
current page, or the page after a successful next-week navigation): every
branch stores its message in the view cache under the requested key and
returns it with `ok = True`. -/
def viewScrape (_w : World) (p : Page) (l : List Ev) (which : String) : OpOut :=
  ⟨.ok (true, viewScrapeMsg p), l ++ [.writeCache which (viewScrapeMsg p)]⟩

/-- `_view_week_fast(which)`: serve from the cache when fresh and non-empty,
else open the page (navigating first when `which == "next"`), scrape and
render, and store the result in the cache. -/
def viewWeek (w : World) (which : String) : OpOut :=
  if (viewCacheGet w which).getD "" ≠ "" then
    ⟨.ok (true, (viewCacheGet w which).getD ""), [.readCache]⟩
  else
    loadGate w [.readCache] (fun pre =>
      if which = "next" then
        let nav := goToNextWeek w
        if !nav.1 then
          let n := "napta_nav_verify_" ++ w.nowStr ++ ".png"
          ⟨.ok (false, "❌ Navigation didn't land on next week. Screenshot -> " ++ n),
            pre ++ nav.2 ++ [.shot n]⟩
        else viewScrape w w.pageAfterNav (pre ++ nav.2) which
      else viewScrape w w.page pre which)

/-! ### Login (direct mode) -/

/-- `_login_sync` in direct mode: a headful context (created without loading
the storage state), navigation to the app, then a 180 s poll for any
lifecycle affordance or a non-empty chip; the storage state is persisted the
moment one is seen, else a timeout screenshot is taken. -/
def loginOp (w : World) : OpOut :=
  if w.ssoCaptured then
    ⟨.ok (true, "✅ Login captured. You can now run: view / save / submit."),
      [.writeState]⟩
  else
    let n := "napta_login_timeout_" ++ w.nowStr ++ ".png"
    ⟨.ok (false, "Login window timed out. Screenshot -> " ++ n), [.shot n]⟩

/-! ### The command-shell action boundary (`cli._run_napta_action`) -/

inductive NAction where
  | login
  | viewCurrent
  | viewNext
  | viewPrevious
  | saveCurrent
  | saveNext
  | submitCurrent
  | submitNext
  | saveAndSubmitCurrent
deriving DecidableEq, Repr

/-- How one logged effect updates the world. -/
def applyEv (w : World) : Ev → World
  | .launch => { w with sessionOpen := true }
  | .writeState => { w with stateFileExists := true }
  | .writeCache which text => { w with cache := some ⟨w.nowT, which, text⟩ }
  | .unlinkCache => { w with cache := none }
  | _ => w

def applyEvents (w : World) (l : List Ev) : World := l.foldl applyEv w

/-- `save_and_submit_current_week`: save, short-circuit on failure, else
submit against the world updated by the save's effects. -/
def saveAndSubmitCurrentWeek (w : World) : OpOut :=
  let r := saveCurrentWeek w
  match r.res with
  | .ok (true, _) =>
    let s := submitCurrentWeek (applyEvents w r.log)
    ⟨s.res, r.log ++ s.log⟩
  | _ => r

/-- The dispatch inside `cli._run_napta_action` (and its subprocess helper):
one `NaptaClient` method per action string. -/
def actionBody : NAction → World → OpOut
  | .login, w => loginOp w
  | .viewCurrent, w => viewWeek w "current"
  | .viewNext, w => viewWeek w "next"
  | .viewPrevious, w => viewWeek w "previous"
  | .saveCurrent, w => saveCurrentWeek w
  | .saveNext, w => saveNextWeek w
  | .submitCurrent, w => submitCurrentWeek w
  | .submitNext, w => submitNextWeek w
  | .saveAndSubmitCurrent, w => saveAndSubmitCurrentWeek w

/-- The `try/except` boundary of `cli._run_napta_action`:
`KeyboardInterrupt`/`EOFError` become the Cancelled result, any other
escaped exception the generic failure result; a normal return passes
through. -/
def runBoundary : Except Exc (Bool × String) → Bool × String
  | .ok p => p
  | .error .interrupt => (false, "↩️ Cancelled.")
  | .error .eof => (false, "↩️ Cancelled.")
  | .error e => (false, "⚠️ Unexpected Napta error: " ++ excStr e)

/-- The caller-visible result of one shell action. -/
def runNaptaAction (a : NAction) (w : World) : Bool × String :=
  runBoundary (actionBody a w).res

/-! ### Definitions written from the spec's words, for comparison -/

/-- Modelled from the spec: the claimed detection priority order — the
"create" affordance, then the "submit" affordance, then the "save"
affordance — collapsed on a static page, to be compared with the source's
`_wait_for_save_submit_chip`. -/
def waitChipSpecOrder (p : Page) : Option Chip :=
  if p.createBtn then some .create
  else if p.submitBtn then some .submit
  else if p.saveBtn then some .save
  else none

/-- Relative week navigation: the page rendered for each week offset, and
the offset currently visible.  Weeks are only reachable by relative
navigation from the open period. -/
structure WeekNav where
  weeks : Int → Page
  idx : Int

/-- A successful `_go_to_next_week` lands on the following week. -/
def goNextWeekNav (s : WeekNav) : WeekNav := { s with idx := s.idx + 1 }

/-- Modelled from the spec: `goToPreviousWeek()`, the equivalent inverse of
the next-week navigation.  The source implements only `_go_to_next_week`;
no previous-week navigation exists in the repository, so this is the spec's
postulated inverse step. -/
def goPreviousWeekNav (s : WeekNav) : WeekNav := { s with idx := s.idx - 1 }

/-- The period fingerprint observed on the currently visible week — the
marker `_go_to_next_week` captures (stripped parsed title, else the
weekday-header fingerprint). -/
def navFingerprintAt (s : WeekNav) : String := navMarker (s.weeks s.idx)

/-! ### Helper lemmas -/

theorem waitChipS_no_affordance (p : Page) (fuel : Nat)
    (h1 : p.createBtn = false) (h2 : p.saveBtn = false)
    (h3 : p.submitBtn = false) :
    waitChipS p fuel = none := by
  cases fuel with
  | zero => rfl
  | succ n => rw [waitChipS, waitChipAux_static]; simp [h1, h2, h3]

theorem pollChange_stuck (before : String) (obs : Nat → String) :
    ∀ (n base : Nat),
      (∀ k, base ≤ k → k < base + n → obs k = "" ∨ obs k = before) →
      pollChange before obs base n = false := by
  intro n
  induction n with
  | zero => intro base _; rfl
  | succ m ih =>
    intro base h
    rw [pollChange]
    rcases h base (Nat.le_refl _) (by omega) with h0 | h0 <;>
      simp [h0] <;> exact ih (base + 1) (fun k hk1 hk2 => h k (by omega) (by omega))

theorem goAttempts_stuck (before : String) (p : Page) (obs : Nat → String) :
    ∀ (n base : Nat),
      (∀ k, base ≤ k → k < base + 30 * n → obs k = "" ∨ obs k = before) →
      (goAttempts before p obs base n).1 = false ∧
      (goAttempts before p obs base n).2.count .keypress = n := by
  intro n
  induction n with
  | zero => intro base _; simp [goAttempts]
  | succ m ih =>
    intro base h
    rw [goAttempts]
    have hp : pollChange before obs base 30 = false :=
      pollChange_stuck before obs 30 base
        (fun k hk1 hk2 => h k hk1 (by omega))
    have hm := ih (base + 30) (fun k hk1 hk2 => h k (by omega) (by omega))
    have hcl : (attemptClicks p).count Ev.keypress = 1 := by
      by_cases h1 : p.navRightBtn <;> by_cases h2 : p.nextRoleBtn <;>
        simp [attemptClicks, h1, h2, List.count_cons, List.count_append]
    simp [hp, hm.1, hm.2, hcl, List.count_append]
    omega

/-! ### C1 -/

/-- C1: in a terminal lifecycle state — the status chip reads "Approval
pending" or "Submitted" and no create/save/submit affordance resolves —
`submit_current_week` returns `ok = True` with the informational
"already submitted" message and performs no button click; its effects leave
the world unchanged, so a second invocation returns the same informational
success. -/
theorem submitCurrentWeek_terminal_informational (w : World)
    (hl : w.page.loadExc = none) (hg : w.page.onLogin = false)
    (hc : w.page.createBtn = false) (hs : w.page.saveBtn = false)
    (hb : w.page.submitBtn = false) (_ht : chipTerminal w.page = true) :
    (submitCurrentWeek w).res = .ok (true, "ℹ️ Timesheet already submitted.") ∧
    (∀ b, Ev.click b ∉ (submitCurrentWeek w).log) ∧
    (submitCurrentWeek (applyEvents w (submitCurrentWeek w).log)).res =
      .ok (true, "ℹ️ Timesheet already submitted.") ∧
    (∀ b, Ev.click b ∉
      (submitCurrentWeek (applyEvents w (submitCurrentWeek w).log)).log) := by
  have hw := waitChipS_no_affordance w.page shortFuel hc hs hb
  have key : ∀ v : World, v.page = w.page →
      submitCurrentWeek v =
        ⟨.ok (true, "ℹ️ Timesheet already submitted."), ensureLog v⟩ := by
    intro v hv
    unfold submitCurrentWeek loadGate
    rw [hv, hl]
    simp [hg, hw]
  have hnoclick : ∀ (v : World) (b : Btn), Ev.click b ∉ ensureLog v := by
    intro v b
    unfold ensureLog
    by_cases ho : v.sessionOpen <;> by_cases hf : v.stateFileExists <;>
      simp [ho, hf]
  have hpage : ∀ (v : World) (l : List Ev), (applyEvents v l).page = v.page := by
    intro v l
    induction l generalizing v with
    | nil => rfl
    | cons e rest ih =>
      show (applyEvents (applyEv v e) rest).page = v.page
      rw [ih]
      cases e <;> rfl
  have h1 := key w rfl
  have h2 := key (applyEvents w (submitCurrentWeek w).log)
    (hpage w (submitCurrentWeek w).log)
  refine ⟨by rw [h1], ?_, by rw [h2], ?_⟩
  · intro b
    rw [h1]
    exact hnoclick w b
  · intro b
    rw [h2]
    exact hnoclick _ b

/-- Witness for C1 at a concrete terminal world. -/
theorem submitCurrentWeek_terminal_informational_witness :
    (submitCurrentWeek { page := { chipCands := ["Approval pending"] } }).res =
      .ok (true, "ℹ️ Timesheet already submitted.") ∧
    Ev.click .submit ∉
      (submitCurrentWeek { page := { chipCands := ["Approval pending"] } }).log := by
  have h := submitCurrentWeek_terminal_informational
    { page := { chipCands := ["Approval pending"] } }
    rfl rfl rfl rfl rfl (by decide)
  exact ⟨h.1, h.2.1 .submit⟩

/-! ### C2 -/

/-- C2 counterexample: on a page where both the save and the submit
affordances resolve, `_wait_for_save_submit_chip` reports "save", while the
claimed priority order (create, then submit, then save) would report
"submit" — the claim's ordering of the submit and save checks is false. -/
theorem waitChip_priority_counterexample :
    waitChipS { saveBtn := true, submitBtn := true } shortFuel =
      some Chip.save ∧
    waitChipSpecOrder { saveBtn := true, submitBtn := true } =
      some Chip.submit ∧
    waitChipS { saveBtn := true, submitBtn := true } shortFuel ≠
      waitChipSpecOrder { saveBtn := true, submitBtn := true } := by
  decide

/-- Soundness of the status-chip scan: whatever `_get_status_chip_text`
returns (when non-empty) is the stripped text of one of the per-container
candidates, that candidate matches the literal status regex
(`Not created`, `Draft`, `Open`, `Validated`, `Approval pending`,
`Submitted`), and its stripped form is non-empty and at most 30
characters. -/
theorem chipScan_sound (cands : List String) :
    chipScan cands = "" ∨
      ∃ t ∈ cands, chipScan cands = strStrip t ∧
        matchesStatusRegex t = true ∧ strStrip t ≠ "" ∧
        (strStrip t).length ≤ 30 := by
  induction cands with
  | nil => exact Or.inl rfl
  | cons t rest ih =>
    by_cases h : matchesStatusRegex t = true ∧ strStrip t ≠ "" ∧
        (strStrip t).length ≤ 30
    · right
      refine ⟨t, List.mem_cons_self t rest, ?_, h.1, h.2.1, h.2.2⟩
      simp only [chipScan]
      rw [if_pos h]
    · have hstep : chipScan (t :: rest) = chipScan rest := by
        simp only [chipScan]
        rw [if_neg h]
      rcases ih with h0 | ⟨u, hu, h1, h2, h3, h4⟩
      · left
        rw [hstep]
        exact h0
      · right
        exact ⟨u, List.mem_cons_of_mem t hu, by rw [hstep]; exact h1,
          h2, h3, h4⟩

/-- C2 amended: state detection polls in a loop with a ~150 ms sleep and,
within each iteration, checks in priority order: first the 'create'
affordance, then the **'save'** affordance, then the **'submit'**
affordance, and only then the literal status strings (Not created, Draft,
Open, Approval pending, Submitted — the source additionally matches
Validated) scoped to header-like containers and length-bounded: on a
static page it reports the first affordance in that order; the chip text
it consults is always one of the container-scoped candidates matching the
literal regex, stripped, non-empty and at most 30 characters; and when
the timeout elapses with no affordance found (in particular when only
status text is present) it returns `none`, which callers treat as no
actionable control. -/
theorem waitChip_priority_amended :
    (∀ (p : Page) (fuel : Nat),
      waitChipS p (fuel + 1) =
        (if p.createBtn then some Chip.create
         else if p.saveBtn then some Chip.save
         else if p.submitBtn then some Chip.submit
         else none)) ∧
    (∀ p : Page, getStatusChipText p = "" ∨
      ∃ t ∈ p.chipCands, getStatusChipText p = strStrip t ∧
        matchesStatusRegex t = true ∧ strStrip t ≠ "" ∧
        (strStrip t).length ≤ 30) ∧
    (∀ (pages : Nat → Page) (t : Nat), waitChipAux pages t 0 = none) ∧
    (∀ (cands : List String) (fuel : Nat),
      waitChipS { chipCands := cands } fuel = none) := by
  refine ⟨fun p fuel => waitChipAux_static p 0 fuel,
    fun p => chipScan_sound p.chipCands, fun pages t => rfl, ?_⟩
  intro cands fuel
  exact waitChipS_no_affordance _ _ rfl rfl rfl

/-! ### C3 -/

/-- C3: a next-week navigation followed by the equivalent previous-week
navigation restores the period fingerprint observed before the first
navigation, for every page environment and starting week. -/
theorem nav_round_trip_fingerprint (s : WeekNav) :
    navFingerprintAt (goPreviousWeekNav (goNextWeekNav s)) =
      navFingerprintAt s := by
  simp [navFingerprintAt, goPreviousWeekNav, goNextWeekNav]

/-! ### C4 -/

/-- The condition under which the leading `while` loop of
`_sanitize_values` drops the first value: non-empty, non-blank once
stripped, and equal to the project label or a 16-character lowercase prefix
match of it. -/
def labelLike (proj v : String) : Prop :=
  v ≠ "" ∧ strStrip v ≠ "" ∧
    (strStrip v = proj ∨
      strStarts (strLower (strStrip v)) (strTake (strLower proj) 16))

instance (proj v : String) : Decidable (labelLike proj v) := by
  unfold labelLike
  infer_instance

theorem dropDupLabel_skip (proj v : String) (rest : List String)
    (h : ¬ labelLike proj v) :
    dropDupLabel proj (v :: rest) = v :: rest := by
  unfold labelLike at h
  push_neg at h
  unfold dropDupLabel
  by_cases h1 : v = ""
  · simp [h1]
  · by_cases h2 : strStrip v = ""
    · simp [h1, h2]
    · have h3 := h h1 h2
      simp only [h1, if_false, h2]
      rw [if_neg]
      intro hc
      rcases hc with hc | hc
      · exact absurd hc h3.1
      · exact absurd hc (by simpa using h3.2)

theorem dropDupLabel_head (proj : String) (rest : List String)
    (hne : proj ≠ "") (htrim : strStrip proj = proj) :
    dropDupLabel proj (proj :: rest) = dropDupLabel proj rest := by
  rw [dropDupLabel]
  simp [hne, htrim]

theorem sanitizeValues_drop_total (day_count : Nat) (proj : String)
    (values : List String) (hd : dropDupLabel proj values = values)
    (hl : values.length = day_count + 1) :
    sanitizeValues day_count proj values = values.take day_count := by
  unfold sanitizeValues
  simp only [hd, hl]
  have h2 : (values.take day_count).length = day_count := by
    rw [List.length_take]
    omega
  simp [h2]

/-- C4: row-value sanitization.  First shape: a raw row of `dayCount + 1`
values whose first value equals the (non-blank) project label sanitizes to
the sanitization of its tail — the duplicated label is dropped — and the
output always has exactly `dayCount` values.  Second shape: a raw row of
`dayCount + 1` values whose first value is not label-like and whose last
value is numeric sanitizes to the row without its last element: the extra
trailing cell is treated as the weekly total, not an eighth day value. -/
theorem sanitizeValues_spec (day_count : Nat) (proj v0 : String)
    (rest : List String) :
    (proj ≠ "" → strStrip proj = proj → rest.length = day_count →
      sanitizeValues day_count proj (proj :: rest) =
        sanitizeValues day_count proj rest ∧
      (sanitizeValues day_count proj (proj :: rest)).length = day_count) ∧
    (¬ labelLike proj v0 → (v0 :: rest).length = day_count + 1 →
      Option.all (fun lastv => lastv.data.any Char.isDigit)
        ((v0 :: rest).getLast?) = true →
      sanitizeValues day_count proj (v0 :: rest) = (v0 :: rest).dropLast) := by
  constructor
  · intro hne htrim _hlen
    constructor
    · unfold sanitizeValues
      rw [dropDupLabel_head proj rest hne htrim]
    · exact sanitizeValues_length day_count proj (proj :: rest)
  · intro hnl hlen _hnum
    rw [sanitizeValues_drop_total day_count proj (v0 :: rest)
      (dropDupLabel_skip proj v0 rest hnl) hlen]
    rw [List.dropLast_eq_take, hlen]
    simp

/-- Witness for C4 at concrete rows with `dayCount = 5`. -/
theorem sanitizeValues_spec_witness :
    sanitizeValues 5 "Proj Alpha" ["Proj Alpha", "1d", "2d", "3d", "4d", "5d"] =
      sanitizeValues 5 "Proj Alpha" ["1d", "2d", "3d", "4d", "5d"] ∧
    (sanitizeValues 5 "Proj Alpha"
      ["Proj Alpha", "1d", "2d", "3d", "4d", "5d"]).length = 5 ∧
    sanitizeValues 5 "Proj Alpha" ["0.5d", "1d", "1d", "1d", "1d", "4.5d"] =
      ["0.5d", "1d", "1d", "1d", "1d"] := by
  have h1 := (sanitizeValues_spec 5 "Proj Alpha" "x"
    ["1d", "2d", "3d", "4d", "5d"]).1 (by decide) (by decide) rfl
  have h2 := (sanitizeValues_spec 5 "Proj Alpha" "0.5d"
    ["1d", "1d", "1d", "1d", "4.5d"]).2 (by decide) rfl (by decide)
  exact ⟨h1.1, h1.2, h2.trans (by decide)⟩

/-! ### C5 -/

/-- C5: for the header title `"W45 from 03-11-2025 to 09-11-2025"` the
synthesized day labels are exactly Monday 03-11-2025 through Sunday
09-11-2025; and for every title whose token sequence matches the numeric
`from … to …` form, the labels are one `"<WeekdayName> DD-MM-YYYY"` entry
per day of the span starting at the start date, their count clamped to the
span length and never more than 7. -/
theorem labelsFromTitle_w45_spec :
    labelsFromTitle "W45 from 03-11-2025 to 09-11-2025" =
      ["Monday 03-11-2025", "Tuesday 04-11-2025", "Wednesday 05-11-2025",
       "Thursday 06-11-2025", "Friday 07-11-2025", "Saturday 08-11-2025",
       "Sunday 09-11-2025"] ∧
    ∀ (title : String) (s e : Date),
      findFromTo (splitWs title) = some (s, e) →
      (labelsFromTitle title).length =
        (max 1 (min (rataDie e - rataDie s + 1) 7)).toNat ∧
      (labelsFromTitle title).length ≤ 7 ∧
      ∀ i (h : i < (labelsFromTitle title).length),
        (labelsFromTitle title).get ⟨i, h⟩ =
          weekdayName (addDays s i) ++ " " ++ fmtDate (addDays s i) := by
  constructor
  · decide
  · intro title s e hf
    have hl : labelsFromTitle title =
        labelsForSpan s (rataDie e - rataDie s + 1) := by
      unfold labelsFromTitle
      simp only [hf]
    rw [hl]
    refine ⟨by simp [labelsForSpan], ?_, ?_⟩
    · simp only [labelsForSpan, List.length_map, List.length_range]
      omega
    · intro i h
      simp [labelsForSpan]

/-- Witness for C5 at a 5-day span title. -/
theorem labelsFromTitle_w45_spec_witness :
    (labelsFromTitle "W02 from 05-01-2026 to 09-01-2026").length = 5 ∧
    (labelsFromTitle "W02 from 05-01-2026 to 09-01-2026").length ≤ 7 := by
  have h := labelsFromTitle_w45_spec.2 "W02 from 05-01-2026 to 09-01-2026"
    { day := 5, month := 1, year := 2026 } { day := 9, month := 1, year := 2026 }
    (by decide)
  exact ⟨h.1.trans (by decide), h.2.1⟩

/-! ### C6 -/

theorem pollChange_hit (before : String) (obs : Nat → String) (base n : Nat)
    (h1 : obs base ≠ "") (h2 : obs base ≠ before) :
    pollChange before obs base (n + 1) = true := by
  rw [pollChange]
  simp [h1, h2]

/-- C6: `_go_to_next_week` captures the period marker before clicking,
performs its click fallbacks (data-cy control when present, role "Next"
when present, always the ArrowRight keypress) once per cycle, retries the
click-and-poll cycle exactly 3 times — each cycle polling the marker 30
times — and returns `False` when the marker never changes from the
captured value; `save_next_week`, `submit_next_week` and
`view_week("next")` then report failure with a screenshot path in the
message.  Conversely a marker change observed at the first poll makes it
return `True`. -/
theorem goToNextWeek_failure_spec (w : World)
    (hstuck : ∀ k, k < 90 → w.navObs k = "" ∨ w.navObs k = navMarker w.page)
    (hl : w.page.loadExc = none) (hg : w.page.onLogin = false)
    (hc : w.cache = none) :
    (goToNextWeek w).1 = false ∧
    (goToNextWeek w).2.count .keypress = 3 ∧
    (saveNextWeek w).res = .ok (false,
      "❌ Could not navigate to next week. Screenshot -> " ++
        ("napta_error_" ++ w.nowStr ++ ".png")) ∧
    (submitNextWeek w).res = .ok (false,
      "❌ Could not navigate to next week. Screenshot -> " ++
        ("napta_error_" ++ w.nowStr ++ ".png")) ∧
    (viewWeek w "next").res = .ok (false,
      "❌ Navigation didn't land on next week. Screenshot -> " ++
        ("napta_nav_verify_" ++ w.nowStr ++ ".png")) ∧
    (∀ w' : World, w'.navObs 0 ≠ "" → w'.navObs 0 ≠ navMarker w'.page →
      (goToNextWeek w').1 = true) := by
  have hf := goAttempts_stuck (navMarker w.page) w.page w.navObs 3 0
    (fun k _ hk2 => hstuck k (by omega))
  have hgo : (goToNextWeek w).1 = false := hf.1
  refine ⟨hgo, hf.2, ?_, ?_, ?_, ?_⟩
  · unfold saveNextWeek loadGate
    rw [hl]
    simp [hg, hgo]
  · unfold submitNextWeek loadGate
    rw [hl]
    simp [hg, hgo]
  · unfold viewWeek viewCacheGet
    rw [hc]
    unfold loadGate
    rw [hl]
    simp [hg, hgo]
  · intro w' h1 h2
    have hp : pollChange (navMarker w'.page) w'.navObs 0 30 = true :=
      pollChange_hit (navMarker w'.page) w'.navObs 0 29 h1 h2
    unfold goToNextWeek
    rw [goAttempts]
    simp [hp]

/-- Witness for C6 at a world whose marker observations never change. -/
theorem goToNextWeek_failure_spec_witness :
    (goToNextWeek { page := {} }).1 = false ∧
    (saveNextWeek { page := {} }).res = .ok (false,
      "❌ Could not navigate to next week. Screenshot -> " ++
        ("napta_error_" ++ "T" ++ ".png")) := by
  have h := goToNextWeek_failure_spec { page := {} }
    (fun k _ => Or.inl rfl) rfl rfl rfl
  exact ⟨h.1, h.2.2.1⟩

/-! ### C9 -/

/-- C9: the scraped view is cached keyed by the requested period.  For a
cache entry with non-empty text, `view_week` returns the cached text —
touching nothing but the cache file — precisely when the entry's key
matches the request and it is less than 10 seconds old; in every other
case the call behaves exactly as with no cache at all, rebuilding the view
from the page. -/
theorem viewCache_ttl_spec (w : World) (which : String) (e : CacheEntry)
    (hc : w.cache = some e) (ht : e.text ≠ "") :
    ((w.nowT - e.ts < 10 ∧ e.which = which) →
      viewWeek w which = ⟨.ok (true, e.text), [.readCache]⟩) ∧
    (¬(w.nowT - e.ts < 10 ∧ e.which = which) →
      viewWeek w which = viewWeek { w with cache := none } which) := by
  constructor
  · intro hfresh
    unfold viewWeek viewCacheGet
    rw [hc]
    simp [hfresh, ht]
  · intro hstale
    unfold viewWeek viewCacheGet
    rw [hc]
    simp only [if_neg hstale]
    rfl

/-- A world holding a view-cache entry stored at time 0 under the key
"current", observed at clock time `t`. -/
def cachedWorld9 (t : Int) : World :=
  { page := {}
    cache := some { ts := 0, which := "current", text := "CACHED" }
    nowT := t }

/-- Witness for C9: a fresh matching entry is served, a stale one falls
back to the no-cache behaviour. -/
theorem viewCache_ttl_spec_witness :
    viewWeek (cachedWorld9 5) "current" =
      ⟨.ok (true, "CACHED"), [.readCache]⟩ ∧
    viewWeek (cachedWorld9 50) "current" =
      viewWeek { cachedWorld9 50 with cache := none } "current" := by
  constructor
  · exact (viewCache_ttl_spec (cachedWorld9 5) "current" _ rfl
      (by decide)).1 (by decide)
  · exact (viewCache_ttl_spec (cachedWorld9 50) "current" _ rfl
      (by decide)).2 (by decide)

/-! ### C10 -/

/-- A world holding a fresh view-cache entry under the key "current". -/
def cachedWorld10 : World :=
  { page := {}
    cache := some { ts := 0, which := "current", text := "CACHED" }
    nowT := 5 }

/-- C10 counterexample: with a fresh cache entry stored under the key
"current", `view_week("previous")` misses the cache (its key is
"previous") and rebuilds, while `view_week("current")` returns the cached
text — the two calls do not return equal results for every state. -/
theorem viewPrevious_counterexample :
    (viewWeek cachedWorld10 "current").res = .ok (true, "CACHED") ∧
    (viewWeek cachedWorld10 "previous").res =
      .ok (true, "🗓 Week\nStatus: unknown\nℹ️ Could not locate the timesheet table.") ∧
    (viewWeek cachedWorld10 "current").res ≠
      (viewWeek cachedWorld10 "previous").res := by
  decide

/-- Absence of week-navigation effects from a log. -/
def navFree (l : List Ev) : Prop :=
  Ev.keypress ∉ l ∧ Ev.click .navRight ∉ l ∧ Ev.click .nextRole ∉ l

theorem navFree_append {a b : List Ev} (ha : navFree a) (hb : navFree b) :
    navFree (a ++ b) := by
  unfold navFree at *
  simp only [List.mem_append]
  tauto

theorem navFree_ensureLog (w : World) : navFree (ensureLog w) := by
  unfold ensureLog
  by_cases h : w.stateFileExists <;> simp [h, navFree]

theorem navFree_viewScrape (w : World) (p : Page) (l : List Ev)
    (which : String) (h : navFree l) :
    navFree (viewScrape w p l which).log :=
  navFree_append h (by simp [navFree])

theorem navFree_loadGate (w : World) (l0 : List Ev) (k : List Ev → OpOut)
    (h0 : navFree l0)
    (hk : ∀ pre, navFree pre → navFree (k pre).log) :
    navFree (loadGate w l0 k).log := by
  have hpre : navFree (l0 ++ ensureLog w) :=
    navFree_append h0 (navFree_ensureLog w)
  unfold loadGate
  rcases w.page.loadExc with _ | exc
  · dsimp only
    by_cases hg : w.page.onLogin
    · rw [if_pos hg]
      exact navFree_append hpre (by simp [navFree])
    · rw [if_neg hg]
      exact hk _ hpre
  · cases exc <;> exact hpre

theorem loadGate_res_congr (w : World) (l0 l0' : List Ev)
    (k k' : List Ev → OpOut)
    (h : ∀ pre pre', (k pre).res = (k' pre').res) :
    (loadGate w l0 k).res = (loadGate w l0' k').res := by
  unfold loadGate
  rcases w.page.loadExc with _ | exc
  · dsimp only
    by_cases hg : w.page.onLogin
    · rw [if_pos hg, if_pos hg]
    · rw [if_neg hg, if_neg hg]
      exact h _ _
  · cases exc <;> rfl

theorem viewScrape_res_which (w : World) (p : Page) (l l' : List Ev)
    (a b : String) :
    (viewScrape w p l a).res = (viewScrape w p l' b).res := rfl

/-- C10 amended: `view_week("previous")` performs no week navigation (only
the "next" argument triggers the navigator; there is no previous-week
navigation in the client), and apart from the period key used for the
cache lookup and store it follows the same steps as
`view_week("current")`: with no cache entry the two calls return equal
results. -/
theorem viewPrevious_amended (w : World) :
    (Ev.keypress ∉ (viewWeek w "previous").log ∧
     Ev.click .navRight ∉ (viewWeek w "previous").log ∧
     Ev.click .nextRole ∉ (viewWeek w "previous").log) ∧
    (w.cache = none →
      (viewWeek w "previous").res = (viewWeek w "current").res) := by
  constructor
  · show navFree (viewWeek w "previous").log
    unfold viewWeek
    by_cases hcc : (viewCacheGet w "previous").getD "" = ""
    · rw [if_neg (by simp [hcc])]
      refine navFree_loadGate w _ _ (by simp [navFree]) ?_
      intro pre hpre
      rw [if_neg (by decide)]
      exact navFree_viewScrape w w.page pre "previous" hpre
    · rw [if_pos hcc]
      simp [navFree]
  · intro hc
    have hget : ∀ which, viewCacheGet w which = none := by
      intro which
      unfold viewCacheGet
      rw [hc]
    unfold viewWeek
    rw [hget, hget]
    simp only [Option.getD_none, ne_eq, not_true_eq_false, if_false,
      reduceCtorEq, ite_false]
    refine loadGate_res_congr w _ _ _ _ ?_
    intro pre pre'
    rw [if_neg (by decide), if_neg (by decide)]
    exact viewScrape_res_which w w.page pre pre' "previous" "current"

/-- Witness for C10's amended statement on an empty-cache world. -/
theorem viewPrevious_amended_witness :
    (viewWeek { page := {} } "previous").res =
      (viewWeek { page := {} } "current").res ∧
    Ev.keypress ∉ (viewWeek { page := {} } "previous").log := by
  have h := viewPrevious_amended { page := {} }
  exact ⟨h.2 rfl, h.1.1⟩

/-! ### C7 -/

theorem loadGate_interrupt (w : World) (l0 : List Ev) (k : List Ev → OpOut)
    (hl : w.page.loadExc = some .interrupt) :
    (loadGate w l0 k).res = .error .interrupt := by
  unfold loadGate
  rw [hl]

theorem loadGate_timeout (w : World) (l0 : List Ev) (k : List Ev → OpOut)
    (hl : w.page.loadExc = some .timeout) :
    (loadGate w l0 k).res =
      .ok (false, "⏰ The page load took too long (timed out). Please retry in a few seconds.") := by
  unfold loadGate
  rw [hl]

theorem viewWeek_skipCache (w : World) (which : String)
    (hc : w.cache = none) :
    viewWeek w which =
      loadGate w [.readCache] (fun pre =>
        if which = "next" then
          let nav := goToNextWeek w
          if !nav.1 then
            let n := "napta_nav_verify_" ++ w.nowStr ++ ".png"
            ⟨.ok (false, "❌ Navigation didn't land on next week. Screenshot -> " ++ n),
              pre ++ nav.2 ++ [.shot n]⟩
          else viewScrape w w.pageAfterNav (pre ++ nav.2) which
        else viewScrape w w.page pre which) := by
  unfold viewWeek
  have hget : viewCacheGet w which = none := by
    unfold viewCacheGet
    rw [hc]
  rw [hget]
  rw [if_neg (by simp)]

/-- C7: the shell's action boundary.  Whatever a client operation returns
normally is passed to the caller unchanged as its `(ok, message)` pair; a
`KeyboardInterrupt` escaping a blocking call (it passes through
`_safe_run`, which only catches `Exception`s) reaches the boundary and is
converted to the Cancelled result rather than crashing; and a Playwright
timeout during the page load is already converted to a `(False, message)`
pair inside the operation — so every caller sees only `(ok, message)`
pairs. -/
theorem action_boundary_spec (a : NAction) (w : World) :
    (∀ p, (actionBody a w).res = .ok p → runNaptaAction a w = p) ∧
    (a ≠ .login → w.cache = none → w.page.loadExc = some .interrupt →
      runNaptaAction a w = (false, "↩️ Cancelled.")) ∧
    (a ≠ .login → w.cache = none → w.page.loadExc = some .timeout →
      runNaptaAction a w =
        (false, "⏰ The page load took too long (timed out). Please retry in a few seconds.")) := by
  refine ⟨?_, ?_, ?_⟩
  · intro p h
    unfold runNaptaAction
    rw [h]
    rfl
  · intro ha hc hl
    unfold runNaptaAction
    have hres : (actionBody a w).res = .error .interrupt := by
      cases a
      case login => exact absurd rfl ha
      case viewCurrent =>
        show (viewWeek w "current").res = _
        rw [viewWeek_skipCache w "current" hc]
        exact loadGate_interrupt _ _ _ hl
      case viewNext =>
        show (viewWeek w "next").res = _
        rw [viewWeek_skipCache w "next" hc]
        exact loadGate_interrupt _ _ _ hl
      case viewPrevious =>
        show (viewWeek w "previous").res = _
        rw [viewWeek_skipCache w "previous" hc]
        exact loadGate_interrupt _ _ _ hl
      case saveCurrent => exact loadGate_interrupt _ _ _ hl
      case saveNext => exact loadGate_interrupt _ _ _ hl
      case submitCurrent => exact loadGate_interrupt _ _ _ hl
      case submitNext => exact loadGate_interrupt _ _ _ hl
      case saveAndSubmitCurrent =>
        show (saveAndSubmitCurrentWeek w).res = _
        have h1 : (saveCurrentWeek w).res = .error .interrupt :=
          loadGate_interrupt _ _ _ hl
        unfold saveAndSubmitCurrentWeek
        dsimp only
        rw [h1]
        exact h1
    rw [hres]
    rfl
  · intro ha hc hl
    unfold runNaptaAction
    have hres : (actionBody a w).res =
        .ok (false, "⏰ The page load took too long (timed out). Please retry in a few seconds.") := by
      cases a
      case login => exact absurd rfl ha
      case viewCurrent =>
        show (viewWeek w "current").res = _
        rw [viewWeek_skipCache w "current" hc]
        exact loadGate_timeout _ _ _ hl
      case viewNext =>
        show (viewWeek w "next").res = _
        rw [viewWeek_skipCache w "next" hc]
        exact loadGate_timeout _ _ _ hl
      case viewPrevious =>
        show (viewWeek w "previous").res = _
        rw [viewWeek_skipCache w "previous" hc]
        exact loadGate_timeout _ _ _ hl
      case saveCurrent => exact loadGate_timeout _ _ _ hl
      case saveNext => exact loadGate_timeout _ _ _ hl
      case submitCurrent => exact loadGate_timeout _ _ _ hl
      case submitNext => exact loadGate_timeout _ _ _ hl
      case saveAndSubmitCurrent =>
        show (saveAndSubmitCurrentWeek w).res = _
        have h1 : (saveCurrentWeek w).res =
            .ok (false, "⏰ The page load took too long (timed out). Please retry in a few seconds.") :=
          loadGate_timeout _ _ _ hl
        unfold saveAndSubmitCurrentWeek
        dsimp only
        rw [h1]
        exact h1
    rw [hres]
    rfl

/-- Witness for C7: cancellation, page-load timeout, and normal
passthrough at concrete worlds. -/
theorem action_boundary_spec_witness :
    runNaptaAction .saveCurrent { page := { loadExc := some .interrupt } } =
      (false, "↩️ Cancelled.") ∧
    runNaptaAction .saveCurrent { page := { loadExc := some .timeout } } =
      (false, "⏰ The page load took too long (timed out). Please retry in a few seconds.") ∧
    runNaptaAction .submitCurrent { page := { chipCands := ["Submitted"] } } =
      (true, "ℹ️ Timesheet already submitted.") := by
  refine ⟨?_, ?_, ?_⟩
  · exact (action_boundary_spec .saveCurrent
      { page := { loadExc := some .interrupt } }).2.1 (by decide) rfl rfl
  · exact (action_boundary_spec .saveCurrent
      { page := { loadExc := some .timeout } }).2.2 (by decide) rfl rfl
  · exact (action_boundary_spec .submitCurrent
      { page := { chipCands := ["Submitted"] } }).1
      (true, "ℹ️ Timesheet already submitted.") (by decide)

/-! ### C8 -/

/-- A list of effects touching neither side of the storage-state file. -/
def stateFree (t : List Ev) : Prop :=
  Ev.readState ∉ t ∧ Ev.writeState ∉ t

/-- What one operation may do to the storage-state file when run against
`w`: never write it, read it at most once (and not at all when a session is
already open), and read it only when the file exists at an actual session
construction. -/
def stateTame (w : World) (l : List Ev) : Prop :=
  Ev.writeState ∉ l ∧
  l.count .readState ≤ (if w.sessionOpen then 0 else 1) ∧
  (Ev.readState ∈ l → w.stateFileExists = true ∧ w.sessionOpen = false)

theorem stateTame_extend (w : World) {l t : List Ev} (h : stateTame w l)
    (ht : stateFree t) : stateTame w (l ++ t) := by
  obtain ⟨h1, h2, h3⟩ := h
  obtain ⟨t1, t2⟩ := ht
  refine ⟨?_, ?_, ?_⟩
  · intro hm
    rcases List.mem_append.mp hm with hm | hm
    · exact h1 hm
    · exact t2 hm
  · rw [List.count_append, List.count_eq_zero.mpr t1]
    omega
  · intro hm
    rcases List.mem_append.mp hm with hm | hm
    · exact h3 hm
    · exact absurd hm t1

theorem stateTame_prepend (w : World) {t l : List Ev} (ht : stateFree t)
    (h : stateTame w l) : stateTame w (t ++ l) := by
  obtain ⟨h1, h2, h3⟩ := h
  obtain ⟨t1, t2⟩ := ht
  refine ⟨?_, ?_, ?_⟩
  · intro hm
    rcases List.mem_append.mp hm with hm | hm
    · exact t2 hm
    · exact h1 hm
  · rw [List.count_append, List.count_eq_zero.mpr t1]
    omega
  · intro hm
    rcases List.mem_append.mp hm with hm | hm
    · exact absurd hm t1
    · exact h3 hm

theorem stateTame_ensureLog (w : World) : stateTame w (ensureLog w) := by
  unfold stateTame ensureLog
  by_cases ho : w.sessionOpen <;> by_cases hf : w.stateFileExists <;>
    simp [ho, hf]

theorem attemptClicks_mem (p : Page) (e : Ev) (he : e ∈ attemptClicks p) :
    e = .click .navRight ∨ e = .click .nextRole ∨ e = .keypress := by
  unfold attemptClicks at he
  by_cases h1 : p.navRightBtn <;> by_cases h2 : p.nextRoleBtn <;>
    simp [h1, h2] at he <;> tauto

theorem goAttempts_mem (before : String) (p : Page) (obs : Nat → String) :
    ∀ (n base : Nat) (e : Ev), e ∈ (goAttempts before p obs base n).2 →
      e = .click .navRight ∨ e = .click .nextRole ∨ e = .keypress := by
  intro n
  induction n with
  | zero => intro base e he; simp [goAttempts] at he
  | succ m ih =>
    intro base e he
    rw [goAttempts] at he
    dsimp only at he
    by_cases hp : pollChange before obs base 30 = true
    · rw [if_pos hp] at he
      dsimp only at he
      exact attemptClicks_mem p e he
    · rw [if_neg hp] at he
      dsimp only at he
      rcases List.mem_append.mp he with he | he
      · exact attemptClicks_mem p e he
      · exact ih (base + 30) e he

theorem stateFree_nav (before : String) (p : Page) (obs : Nat → String)
    (base n : Nat) : stateFree (goAttempts before p obs base n).2 := by
  constructor <;> intro hm <;>
    rcases goAttempts_mem before p obs n base _ hm with h | h | h <;>
    exact Ev.noConfusion h

/-- `stateTame` holds for every result of the shared operation prelude when
it holds for every continuation output. -/
theorem stateTame_loadGate (w : World) (l0 : List Ev) (k : List Ev → OpOut)
    (h0 : stateFree l0)
    (hk : ∀ pre, stateTame w pre → stateTame w (k pre).log) :
    stateTame w (loadGate w l0 k).log := by
  have hpre : stateTame w (l0 ++ ensureLog w) :=
    stateTame_prepend w h0 (stateTame_ensureLog w)
  unfold loadGate
  rcases w.page.loadExc with _ | exc
  · dsimp only
    by_cases hg : w.page.onLogin
    · rw [if_pos hg]
      exact stateTame_extend w hpre (by simp [stateFree])
    · rw [if_neg hg]
      exact hk _ hpre
  · cases exc <;> exact hpre

theorem stateTame_saveClickTail (w : World) (p : Page) (ns : String)
    (l : List Ev) (msg : String) (h : stateTame w l) :
    stateTame w (saveClickTail p ns l msg).log := by
  unfold saveClickTail
  by_cases hc : clickSaveOk p
  · rw [if_pos hc]
    exact stateTame_extend w h (by simp [stateFree])
  · rw [if_neg hc]
    exact stateTame_extend w h (by simp [stateFree])

theorem stateTame_createFailOut (w : World) (ns : String) (l : List Ev)
    (h : stateTame w l) : stateTame w (createFailOut ns l).log :=
  stateTame_extend w h (by simp [stateFree])

theorem stateTame_submitClick (w v : World) (p : Page) (l : List Ev)
    (msg : String) (dv : Bool) (h : stateTame w l) :
    stateTame w (submitClick v p l msg dv).log := by
  unfold submitClick
  by_cases hc : clickSubmitOk p
  · rw [if_pos hc]
    have h2 : stateTame w (l ++ ([Ev.click .submit] ++
        (if p.modalConfirmBtn then [Ev.click .modalConfirm] else []))) := by
      refine stateTame_extend w h ?_
      by_cases hm : p.modalConfirmBtn <;> simp [hm, stateFree]
    rw [← List.append_assoc] at h2
    cases dv
    · simp only [Bool.false_eq_true, if_false]
      exact stateTame_extend w h2 (by simp [stateFree])
    · simp only [if_true]
      by_cases hv : waitUntilSubmitted v.pageAfterSubmit
      · rw [if_pos hv]
        exact stateTame_extend w h2 (by simp [stateFree])
      · rw [if_neg hv]
        exact stateTame_extend w h2 (by simp [stateFree])
  · rw [if_neg hc]
    exact h

theorem stateTame_saveCurrentWeek (w : World) :
    stateTame w (saveCurrentWeek w).log := by
  unfold saveCurrentWeek
  refine stateTame_loadGate w [] _ (by simp [stateFree]) ?_
  intro pre hpre
  dsimp only
  rcases waitChipS w.page shortFuel with _ | c
  · exact hpre
  · cases c
    · by_cases hcc : clickCreateOk w.page
      · rw [if_pos hcc]
        have h1 : stateTame w (pre ++ [Ev.click .create]) :=
          stateTame_extend w hpre (by simp [stateFree])
        rcases waitChipS w.pageAfterCreate shortFuel with _ | c2
        · exact h1
        · cases c2
          · exact stateTame_saveClickTail w _ _ _ _ h1
          · exact stateTame_saveClickTail w _ _ _ _ h1
          · exact h1
      · rw [if_neg hcc]
        exact stateTame_createFailOut w _ _ hpre
    · exact stateTame_saveClickTail w _ _ _ _ hpre
    · exact hpre

theorem stateTame_saveNextWeek (w : World) :
    stateTame w (saveNextWeek w).log := by
  unfold saveNextWeek
  refine stateTame_loadGate w [] _ (by simp [stateFree]) ?_
  intro pre hpre
  dsimp only
  have hnav : stateTame w (pre ++ (goToNextWeek w).2) :=
    stateTame_extend w hpre (stateFree_nav _ _ _ _ _)
  by_cases hn : (goToNextWeek w).1
  · simp only [hn, Bool.not_true, Bool.false_eq_true, if_false]
    rcases waitChipS w.pageAfterNav shortFuel with _ | c
    · dsimp only
      by_cases h1 : hasSubmitButton w.pageAfterNav
      · rw [if_pos h1]
        exact hnav
      · rw [if_neg h1]
        by_cases h2 : chipTerminal w.pageAfterNav
        · rw [if_pos h2]
          exact hnav
        · rw [if_neg h2]
          exact hnav
    · cases c
      · by_cases hcc : clickCreateOk w.pageAfterNav
        · rw [if_pos hcc]
          have h1 : stateTame w ((pre ++ (goToNextWeek w).2) ++ [Ev.click .create]) :=
            stateTame_extend w hnav (by simp [stateFree])
          rcases waitChipS w.pageAfterCreate shortFuel with _ | c2
          · exact h1
          · cases c2
            · exact stateTame_saveClickTail w _ _ _ _ h1
            · exact stateTame_saveClickTail w _ _ _ _ h1
            · exact h1
        · rw [if_neg hcc]
          exact stateTame_createFailOut w _ _ hnav
      · exact stateTame_saveClickTail w _ _ _ _ hnav
      · exact hnav
  · simp only [hn, Bool.not_false, if_true]
    exact stateTame_extend w hnav (by simp [stateFree])

theorem stateTame_submitCurrentWeek (w : World) :
    stateTame w (submitCurrentWeek w).log := by
  unfold submitCurrentWeek
  refine stateTame_loadGate w [] _ (by simp [stateFree]) ?_
  intro pre hpre
  dsimp only
  rcases waitChipS w.page shortFuel with _ | c
  · exact hpre
  · cases c
    · by_cases hcc : clickCreateOk w.page
      · rw [if_pos hcc]
        have h1 : stateTame w (pre ++ [Ev.click .create]) :=
          stateTame_extend w hpre (by simp [stateFree])
        rcases waitChipS w.pageAfterCreate shortFuel with _ | c2
        · exact h1
        · cases c2
          · exact h1
          · by_cases hcs : clickSaveOk w.pageAfterCreate
            · rw [if_pos hcs]
              exact stateTame_submitClick w w _ _ _ _
                (stateTame_extend w h1 (by simp [stateFree]))
            · rw [if_neg hcs]
              exact h1
          · exact stateTame_submitClick w w _ _ _ _ h1
      · rw [if_neg hcc]
        exact stateTame_createFailOut w _ _ hpre
    · by_cases hcs : clickSaveOk w.page
      · rw [if_pos hcs]
        exact stateTame_submitClick w w _ _ _ _
          (stateTame_extend w hpre (by simp [stateFree]))
      · rw [if_neg hcs]
        exact hpre
    · exact stateTame_submitClick w w _ _ _ _ hpre

theorem stateTame_submitNextWeek (w : World) :
    stateTame w (submitNextWeek w).log := by
  unfold submitNextWeek
  refine stateTame_loadGate w [] _ (by simp [stateFree]) ?_
  intro pre hpre
  dsimp only
  have hnav : stateTame w (pre ++ (goToNextWeek w).2) :=
    stateTame_extend w hpre (stateFree_nav _ _ _ _ _)
  by_cases hn : (goToNextWeek w).1
  · simp only [hn, Bool.not_true, Bool.false_eq_true, if_false]
    rcases waitChipS w.pageAfterNav shortFuel with _ | c
    · exact hnav
    · cases c
      · by_cases hcc : clickCreateOk w.pageAfterNav
        · rw [if_pos hcc]
          have h1 : stateTame w ((pre ++ (goToNextWeek w).2) ++ [Ev.click .create]) :=
            stateTame_extend w hnav (by simp [stateFree])
          rcases waitChipS w.pageAfterCreate shortFuel with _ | c2
          · exact h1
          · cases c2
            · exact h1
            · by_cases hcs : clickSaveOk w.pageAfterCreate
              · rw [if_pos hcs]
                exact stateTame_submitClick w w _ _ _ _
                  (stateTame_extend w h1 (by simp [stateFree]))
              · rw [if_neg hcs]
                exact h1
            · exact stateTame_submitClick w w _ _ _ _ h1
        · rw [if_neg hcc]
          exact stateTame_createFailOut w _ _ hnav
      · by_cases hcs : clickSaveOk w.pageAfterNav
        · rw [if_pos hcs]
          exact stateTame_submitClick w w _ _ _ _
            (stateTame_extend w hnav (by simp [stateFree]))
        · rw [if_neg hcs]
          exact hnav
      · exact stateTame_submitClick w w _ _ _ _ hnav
  · simp only [hn, Bool.not_false, if_true]
    exact stateTame_extend w hnav (by simp [stateFree])

theorem stateTame_viewWeek (w : World) (which : String) :
    stateTame w (viewWeek w which).log := by
  unfold viewWeek
  by_cases hcc : (viewCacheGet w which).getD "" = ""
  · rw [if_neg (by simp [hcc])]
    refine stateTame_loadGate w [.readCache] _ (by simp [stateFree]) ?_
    intro pre hpre
    by_cases hw : which = "next"
    · rw [if_pos hw]
      dsimp only
      by_cases hn : (goToNextWeek w).1
      · simp only [hn, Bool.not_true, Bool.false_eq_true, if_false]
        exact stateTame_extend w
          (stateTame_extend w hpre (stateFree_nav _ _ _ _ _))
          (by simp [stateFree])
      · simp only [hn, Bool.not_false, if_true]
        exact stateTame_extend w
          (stateTame_extend w hpre (stateFree_nav _ _ _ _ _))
          (by simp [stateFree])
    · rw [if_neg hw]
      exact stateTame_extend w hpre (by simp [stateFree])
  · rw [if_pos hcc]
    exact ⟨by simp, by simp, by simp⟩

theorem sessionOpen_applyEvents_mono (l : List Ev) :
    ∀ (w : World), w.sessionOpen = true →
      (applyEvents w l).sessionOpen = true := by
  induction l with
  | nil => intro w h; exact h
  | cons e rest ih =>
    intro w h
    show (applyEvents (applyEv w e) rest).sessionOpen = true
    apply ih
    cases e <;> simp [applyEv, h]

theorem applyEvents_ensure_open (w : World) (t : List Ev) :
    (applyEvents w (ensureLog w ++ t)).sessionOpen = true := by
  show ((ensureLog w ++ t).foldl applyEv w).sessionOpen = true
  rw [List.foldl_append]
  apply sessionOpen_applyEvents_mono
  unfold ensureLog
  by_cases ho : w.sessionOpen
  · simp [ho]
  · by_cases hf : w.stateFileExists <;>
      simp [ho, hf, List.foldl, applyEv]

theorem stateFileExists_applyEvents (l : List Ev) :
    ∀ (w : World), Ev.writeState ∉ l →
      (applyEvents w l).stateFileExists = w.stateFileExists := by
  induction l with
  | nil => intro w _; rfl
  | cons e rest ih =>
    intro w h
    show (applyEvents (applyEv w e) rest).stateFileExists = w.stateFileExists
    rw [ih _ (fun hm => h (List.mem_cons_of_mem _ hm))]
    cases e <;> simp_all [applyEv]

theorem loadGate_log_shape (w : World) (l0 : List Ev) (k : List Ev → OpOut)
    (hk : ∀ pre, ∃ t, (k pre).log = pre ++ t) :
    ∃ t, (loadGate w l0 k).log = (l0 ++ ensureLog w) ++ t := by
  unfold loadGate
  rcases w.page.loadExc with _ | exc
  · dsimp only
    by_cases hg : w.page.onLogin
    · rw [if_pos hg]
      exact ⟨_, rfl⟩
    · rw [if_neg hg]
      exact hk _
  · cases exc <;> exact ⟨[], (List.append_nil _).symm⟩

theorem loadGate_log_shape0 (w : World) (k : List Ev → OpOut)
    (hk : ∀ pre, ∃ t, (k pre).log = pre ++ t) :
    ∃ t, (loadGate w [] k).log = ensureLog w ++ t := by
  rcases loadGate_log_shape w [] k hk with ⟨t, ht⟩
  exact ⟨t, by simpa using ht⟩

theorem saveCurrentWeek_log_shape (w : World) :
    ∃ t, (saveCurrentWeek w).log = ensureLog w ++ t := by
  unfold saveCurrentWeek
  apply loadGate_log_shape0
  intro pre
  dsimp only
  rcases waitChipS w.page shortFuel with _ | c
  · exact ⟨[], (List.append_nil _).symm⟩
  · cases c
    · by_cases hcc : clickCreateOk w.page
      · rw [if_pos hcc]
        rcases waitChipS w.pageAfterCreate shortFuel with _ | c2
        · exact ⟨_, rfl⟩
        · cases c2
          · unfold saveClickTail
            by_cases hcs : clickSaveOk w.pageAfterCreate
            · rw [if_pos hcs]
              exact ⟨[Ev.click .create, Ev.click .save, Ev.unlinkCache], by simp⟩
            · rw [if_neg hcs]
              exact ⟨[Ev.click .create,
                Ev.shot ("napta_save_failure_" ++ w.nowStr ++ ".png")], by simp⟩
          · unfold saveClickTail
            by_cases hcs : clickSaveOk w.pageAfterCreate
            · rw [if_pos hcs]
              exact ⟨[Ev.click .create, Ev.click .save, Ev.unlinkCache], by simp⟩
            · rw [if_neg hcs]
              exact ⟨[Ev.click .create,
                Ev.shot ("napta_save_failure_" ++ w.nowStr ++ ".png")], by simp⟩
          · exact ⟨_, rfl⟩
      · rw [if_neg hcc]
        exact ⟨_, rfl⟩
    · unfold saveClickTail
      by_cases hcs : clickSaveOk w.page
      · rw [if_pos hcs]
        exact ⟨_, rfl⟩
      · rw [if_neg hcs]
        exact ⟨_, rfl⟩
    · exact ⟨[], (List.append_nil _).symm⟩

theorem stateTame_saveAndSubmit (w : World) :
    stateTame w (saveAndSubmitCurrentWeek w).log := by
  unfold saveAndSubmitCurrentWeek
  dsimp only
  rcases hres : (saveCurrentWeek w).res with e | ⟨ok, msg⟩
  · dsimp only
    exact stateTame_saveCurrentWeek w
  · cases ok
    · dsimp only
      exact stateTame_saveCurrentWeek w
    · dsimp only
      have hr := stateTame_saveCurrentWeek w
      have hopen : (applyEvents w (saveCurrentWeek w).log).sessionOpen = true := by
        rcases saveCurrentWeek_log_shape w with ⟨t, ht⟩
        rw [ht]
        exact applyEvents_ensure_open w t
      have hs := stateTame_submitCurrentWeek (applyEvents w (saveCurrentWeek w).log)
      have hs0 : (submitCurrentWeek (applyEvents w (saveCurrentWeek w).log)).log.count
          Ev.readState = 0 := by
        have h2 := hs.2.1
        rw [hopen] at h2
        simpa using h2
      have hsnr : Ev.readState ∉
          (submitCurrentWeek (applyEvents w (saveCurrentWeek w).log)).log :=
        List.count_eq_zero.mp hs0
      refine ⟨?_, ?_, ?_⟩
      · intro hm
        rcases List.mem_append.mp hm with hm | hm
        · exact hr.1 hm
        · exact hs.1 hm
      · rw [List.count_append, hs0]
        have h3 := hr.2.1
        omega
      · intro hm
        rcases List.mem_append.mp hm with hm | hm
        · exact hr.2.2 hm
        · exact absurd hm hsnr

/-- C8: the persisted storage-state file.  Every non-login operation never
writes it — the file is unchanged by the operation's effects — reads it at
most once, and reads it only when the file exists at session construction
(never when a session is already open).  `login()` never reads it and
writes it exactly when the SSO signal was captured. -/
theorem statePath_effects_spec (a : NAction) (w : World) :
    (a ≠ .login →
      Ev.writeState ∉ (actionBody a w).log ∧
      (applyEvents w (actionBody a w).log).stateFileExists =
        w.stateFileExists ∧
      (actionBody a w).log.count .readState ≤ 1 ∧
      (Ev.readState ∈ (actionBody a w).log →
        w.stateFileExists = true ∧ w.sessionOpen = false)) ∧
    (Ev.readState ∉ (actionBody .login w).log ∧
      (Ev.writeState ∈ (actionBody .login w).log ↔ w.ssoCaptured = true)) := by
  constructor
  · intro ha
    have htame : stateTame w (actionBody a w).log := by
      cases a
      case login => exact absurd rfl ha
      case viewCurrent => exact stateTame_viewWeek w "current"
      case viewNext => exact stateTame_viewWeek w "next"
      case viewPrevious => exact stateTame_viewWeek w "previous"
      case saveCurrent => exact stateTame_saveCurrentWeek w
      case saveNext => exact stateTame_saveNextWeek w
      case submitCurrent => exact stateTame_submitCurrentWeek w
      case submitNext => exact stateTame_submitNextWeek w
      case saveAndSubmitCurrent => exact stateTame_saveAndSubmit w
    refine ⟨htame.1, stateFileExists_applyEvents _ w htame.1, ?_, htame.2.2⟩
    have := htame.2.1
    by_cases ho : w.sessionOpen <;> simp [ho] at this <;> omega
  · show Ev.readState ∉ (loginOp w).log ∧
      (Ev.writeState ∈ (loginOp w).log ↔ w.ssoCaptured = true)
    unfold loginOp
    by_cases hs : w.ssoCaptured <;> simp [hs]

/-- Witness for C8: a view against an existing snapshot reads it once and
leaves it present; a successful login writes it. -/
theorem statePath_effects_spec_witness :
    Ev.writeState ∉
      (actionBody .viewCurrent { page := {}, stateFileExists := true }).log ∧
    (actionBody .viewCurrent
      { page := {}, stateFileExists := true }).log.count .readState ≤ 1 ∧
    Ev.writeState ∈ (actionBody .login { page := {}, ssoCaptured := true }).log := by
  have h1 := (statePath_effects_spec .viewCurrent
    { page := {}, stateFileExists := true }).1 (by decide)
  have h2 := (statePath_effects_spec .login { page := {}, ssoCaptured := true }).2
  exact ⟨h1.1, h1.2.2.1, h2.2.mpr rfl⟩

end Napta
